import Mathlib

/-!
Shallow embedding of the APSViz-Settings repository (RENCI/APSViz-Settings).

The embedded code comes from:
  * `src/common/pg_utils.py`   — class `PGUtils` (single-connection wrapper),
  * `src/src/common/pg_impl.py` — class `PGImplementation` (multi-connection
    domain repository),
  * `src/src/common/utils.py`  — class `GenUtils` and the enum tables,
  * `src/src/server.py`        — the FastAPI request handlers.

Database interaction is modelled by oracles: a cursor oracle
`String → Except Unit (List PyVal)` gives, for each SQL statement, either the
row list `fetchall` would produce or an exception; a result-code oracle
`String → Int` gives the scalar code the multi-connection wrapper hands back
to `PGImplementation` for a statement.  Each embedded operation returns the
trace of database events (statement executions and commits) it issues,
together with its Python return value, so call-counting and ordering claims
are provable.
-/

/-- Model of the Python values that flow through these functions: integers
(including the -1 and -2 sentinels), strings, lists (row lists and rows), and
`None`. -/
inductive PyVal where
  | vint (n : Int)
  | vstr (s : String)
  | vlist (l : List PyVal)
  | vnone

/-- Python runtime errors raised by the embedded code paths. -/
inductive PyErr where
  | typeError
  | indexError
  | keyError
deriving DecidableEq, Repr

/-- Python subscript `v[i]` for a non-negative index: list indexing raises
`IndexError` out of range; string indexing yields a one-character string;
subscripting an int or `None` raises `TypeError`. -/
def getitem : PyVal → Nat → Except PyErr PyVal
  | .vlist l, i =>
    match l.get? i with
    | some v => .ok v
    | none => .error .indexError
  | .vstr s, i =>
    match s.data.get? i with
    | some c => .ok (.vstr (String.mk [c]))
    | none => .error .indexError
  | .vint _, _ => .error .typeError
  | .vnone, _ => .error .typeError

/-- A database event observable from the code: executing one SQL statement,
or committing the open transaction. -/
inductive DbEvent where
  | exec (sql : String)
  | commit
deriving DecidableEq, Repr

/-- The statements executed in a database-event trace, in order. -/
def execCalls (events : List DbEvent) : List String :=
  events.filterMap fun e =>
    match e with
    | .exec s => some s
    | .commit => none

/-- The number of commit events in a database-event trace. -/
def commitCount (events : List DbEvent) : Nat :=
  (events.filter fun e =>
    match e with
    | .commit => true
    | .exec _ => false).length

/-- A cursor oracle: for each SQL statement, the outcome of
`cursor.execute` + `cursor.fetchall` — either the fetched row list or an
exception. -/
def CursorOracle : Type := String → Except Unit (List PyVal)

namespace PGUtils

/-- `PGUtils.exec_sql` from `src/common/pg_utils.py` (lines 134-167).
Executes the statement; when `is_select` is true, fetches all rows and maps
an empty result set to the integer sentinel `-1`; any exception is caught and
mapped to the integer sentinel `-2`; when `is_select` is false the raw
`cursor.execute` result (`None` in psycopg2) is returned unchanged. -/
def exec_sql (cur : CursorOracle) (sql_stmt : String) (is_select : Bool) : PyVal :=
  match cur sql_stmt with
  | .error _ => .vint (-2)
  | .ok rows =>
    if is_select then
      if rows.length = 0 then .vint (-1) else .vlist rows
    else .vnone

/-- `PGUtils.get_job_defs` (pg_utils.py lines 169-180): returns
`self.exec_sql(sql)[0][0]`. -/
def get_job_defs (cur : CursorOracle) : Except PyErr PyVal := do
  let r := exec_sql cur "SELECT public.get_supervisor_job_defs_json()" true
  let row ← getitem r 0
  getitem row 0

/-- `PGUtils.get_job_order` (pg_utils.py lines 182-192): returns
`self.exec_sql(sql)[0][0]`. -/
def get_job_order (cur : CursorOracle) (workflow_type : String) : Except PyErr PyVal := do
  let sql := "SELECT public.get_supervisor_job_order('" ++ workflow_type ++ "')"
  let r := exec_sql cur sql true
  let row ← getitem r 0
  getitem row 0

/-- `PGUtils.get_run_list` (pg_utils.py lines 265-276): returns
`self.exec_sql(sql)[0][0]`. -/
def get_run_list (cur : CursorOracle) : Except PyErr PyVal := do
  let r := exec_sql cur "SELECT public.get_supervisor_run_list()" true
  let row ← getitem r 0
  getitem row 0

/-- The per-workflow `workflow_job_types` table hardcoded inside
`PGUtils.reset_job_order` (pg_utils.py lines 202-226); lookup of a missing
key models Python's `KeyError`. -/
def workflow_job_types : String → Option (List String)
  | "ASGS" => some ["1, 12", "13, 25", "17, 23", "15, 26", "18, 24", "16, 19", "11, 20", "14, 21"]
  | "ECFLOW" => some ["101, 25", "106, 23", "104, 26", "108, 24", "105, 19", "102, 20", "103, 21"]
  | _ => none

/-- The update statement `reset_job_order` formats for one `item` of the
table. -/
def resetSql (item : String) (workflow_type_name : String) : String :=
  "SELECT public.update_next_job_for_job(" ++ item ++ ", '" ++ workflow_type_name ++ "')"

/-- Python's `isinstance(ret_val, list)` on the modelled values. -/
def isListVal : PyVal → Bool
  | .vlist _ => true
  | _ => false

/-- The `for item in workflow_job_types[workflow_type_name]` loop of
`PGUtils.reset_job_order` (pg_utils.py lines 231-242): one `exec_sql` call
per item in order, aborting (`failed = True; break`) at the first call whose
result is not a list.  Returns the event trace and the `failed` flag. -/
def resetLoop (cur : CursorOracle) (workflow_type_name : String) :
    List String → List DbEvent × Bool
  | [] => ([], false)
  | item :: rest =>
    let sql := resetSql item workflow_type_name
    let ret_val := exec_sql cur sql true
    if isListVal ret_val then
      let (events, failed) := resetLoop cur workflow_type_name rest
      (.exec sql :: events, failed)
    else
      ([.exec sql], true)

/-- `PGUtils.reset_job_order` (pg_utils.py lines 194-249): runs the loop
over the fixed per-workflow list; iff no call failed, commits; returns the
`failed` flag.  `none` models the `KeyError` on an unknown workflow name. -/
def reset_job_order (cur : CursorOracle) (workflow_type_name : String) :
    Option (List DbEvent × Bool) :=
  match workflow_job_types workflow_type_name with
  | none => none
  | some items =>
    let (events, failed) := resetLoop cur workflow_type_name items
    if failed then some (events, failed)
    else some (events ++ [.commit], failed)

/-- One iteration of the `get_db_connection` retry loop
(pg_utils.py lines 42-83), as its environment-determined outcomes: the first
`check_db_connection` result, whether `psycopg2.connect` / cursor creation
raised, and the `check_db_connection` result after a fresh connect. -/
structure ConnAttempt where
  checkFirst : Bool
  connectOk : Bool
  checkAfter : Bool
deriving DecidableEq, Repr

/-- Whether one iteration of the `get_db_connection` loop returns: either
the existing connection passes the liveness probe, or a fresh connect
succeeds without an exception and then passes the probe.  In every other
case the loop logs, sleeps 5 seconds, and retries. -/
def connAttemptReturns (a : ConnAttempt) : Bool :=
  a.checkFirst || (a.connectOk && a.checkAfter)

/-- `PGUtils.get_db_connection` (pg_utils.py lines 42-83) run for at most
`fuel` iterations of its `while not good_conn` loop, starting at environment
index `i`: `some k` means the call returned during iteration `k`; `none`
means it is still retrying after `fuel` iterations.  The source has no other
exit: exceptions are caught inside the loop and there is no failure return
value. -/
def get_db_connection (env : Nat → ConnAttempt) : Nat → Nat → Option Nat
  | _, 0 => none
  | i, fuel + 1 =>
    if connAttemptReturns (env i) then some i
    else get_db_connection env (i + 1) fuel

end PGUtils

namespace GenUtils

/-- `GenUtils.image_repo_to_repo_name` (utils.py lines 28-29); lookup with
`[]` on a missing key models `KeyError`. -/
def image_repo_to_repo_name : String → Option String
  | "renciorg" => some "renciorg"
  | "containers.renci.org" => some "containers.renci.org/eds"
  | "732457422609.dkr.ecr.us-east-2.amazonaws.com" => some "732457422609.dkr.ecr.us-east-2.amazonaws.com"
  | _ => none

/-- `GenUtils.job_type_to_image_name` (utils.py lines 32-37). -/
def job_type_to_image_name : String → Option String
  | "adcirc2cog-tiff-job" => some "/adcirc2cog:"
  | "adcirctime-to-cog-job" => some "/adcirctime2cogs:"
  | "adcirc-to-kalpana-cog-job" => some "/kalpana:"
  | "ast-run-harvester-job" => some "/ast_run_harvester:"
  | "collab-data-sync-job" => some "/apsviz-collab-sync:"
  | "final-staging-job" => some "/stagedata:"
  | "geotiff2cog-job" => some "/adcirc2cog:"
  | "hazus" => some "/adras:"
  | "load-geo-server-job" => some "/load_geoserver:"
  | "load-geo-server-s3-job" => some "/load_geoserver:"
  | "obs-mod-ast-job" => some "/ast_supp:"
  | "staging" => some "/stagedata:"
  | "timeseriesdb-ingest-job" => some "/apsviz-timeseriesdb-ingest:"
  | _ => none

/-- `GenUtils.job_type_name_to_id` (utils.py lines 40-43); `.get` on this
dict yields `None` for a missing key. -/
def job_type_name_to_id : String → Option Int
  | "adcirc2cog-tiff-job" => some 23
  | "adcirctime-to-cog-job" => some 26
  | "adcirc-to-kalpana-cog-job" => some 30
  | "ast-run-harvester-job" => some 27
  | "collab-data-sync-job" => some 29
  | "complete" => some 21
  | "final-staging-job" => some 20
  | "geotiff2cog-job" => some 24
  | "hazus" => some 12
  | "load-geo-server-job" => some 19
  | "load-geo-server-s3-job" => some 28
  | "obs-mod-ast-job" => some 25
  | "staging" => some 11
  | "timeseriesdb-ingest-job" => some 31
  | _ => none

end GenUtils

/-- A result-code oracle for `PGUtilsMultiConnect.exec_sql` as used by
`PGImplementation`: for each statement, the scalar code the wrapper returns
(the stored procedure's result on success, or a negative sentinel).
`PGImplementation` compares this value with integers (`!= 0`, `> -1`), so it
is modelled as an `Int` per statement. -/
def ExecOracle : Type := String → Int

/-- Python f-string rendering of `next_process_id`, which is an `int` or
`None` (the id comes from a `dict.get`). -/
def pyArg : Option Int → String
  | some n => toString n
  | none => "None"

namespace PGImplementation

/-- `PGImplementation.update_next_job_for_job` (pg_impl.py lines 156-174):
one formatted update call; an explicit commit iff the result code is
greater than -1.  Returns the database-event trace. -/
def update_next_job_for_job (exec : ExecOracle) (job_name : String)
    (next_process_id : Option Int) (workflow_type_name : String) : List DbEvent :=
  let sql := "SELECT public.update_next_job_for_job('" ++ job_name ++ "', " ++
    pyArg next_process_id ++ ", '" ++ workflow_type_name ++ "')"
  let ret_val := exec sql
  .exec sql :: (if ret_val > -1 then [.commit] else [])

/-- `PGImplementation.update_job_image_version` (pg_impl.py lines 176-193):
one formatted update call; an explicit commit iff the result code is
greater than -1. -/
def update_job_image_version (exec : ExecOracle) (job_name : String)
    (image : String) : List DbEvent :=
  let sql := "SELECT public.update_job_image('" ++ job_name ++ "', '" ++ image ++ "')"
  let ret_val := exec sql
  .exec sql :: (if ret_val > -1 then [.commit] else [])

/-- `PGImplementation.update_run_status` (pg_impl.py lines 195-214): one
formatted update call; an explicit commit iff the result code is greater
than -1. -/
def update_run_status (exec : ExecOracle) (instance_id : Int) (uid : String)
    (status : String) : List DbEvent :=
  let sql := "SELECT public.set_config_item(" ++ toString instance_id ++ ", '" ++ uid ++
    "', 'supervisor_job_status', '" ++ status ++ "')"
  let ret_val := exec sql
  .exec sql :: (if ret_val > -1 then [.commit] else [])

/-- The per-workflow `workflow_job_types` table hardcoded inside
`PGImplementation.reset_job_order` (pg_impl.py lines 88-118). -/
def workflow_job_types : String → Option (List String)
  | "ASGS" => some ["1, 23", "15, 30", "21, 27", "19, 25", "17, 24", "16, 19", "11, 20", "14, 21"]
  | "ECFLOW" => some ["101, 23", "104, 30", "111, 25", "106, 24", "105, 19", "102, 29", "110, 20", "103, 21"]
  | "HECRAS" => some ["201, 21"]
  | _ => none

/-- The `for item in workflow_job_types[workflow_type_name]` loop of
`PGImplementation.reset_job_order` (pg_impl.py lines 124-134): one exec call
per item in order, aborting (`failed = True; break`) at the first call whose
result code is not 0. -/
def resetLoop (exec : ExecOracle) (workflow_type_name : String) :
    List String → List DbEvent × Bool
  | [] => ([], false)
  | item :: rest =>
    let sql := PGUtils.resetSql item workflow_type_name
    let ret_val := exec sql
    if ret_val = 0 then
      let (events, failed) := resetLoop exec workflow_type_name rest
      (.exec sql :: events, failed)
    else
      ([.exec sql], true)

/-- `PGImplementation.reset_job_order` (pg_impl.py lines 80-141): runs the
loop over the fixed per-workflow list; iff no call failed, issues
`self.commit('asgs')`; returns the `failed` flag.  `none` models the
`KeyError` on an unknown workflow name. -/
def reset_job_order (exec : ExecOracle) (workflow_type_name : String) :
    Option (List DbEvent × Bool) :=
  match workflow_job_types workflow_type_name with
  | none => none
  | some items =>
    let (events, failed) := resetLoop exec workflow_type_name items
    if failed then some (events, failed)
    else some (events ++ [.commit], failed)

/-- The statement `PGImplementation.get_job_order` (pg_impl.py lines 65-78)
executes for a workflow type. -/
def getJobOrderSql (workflow_type : String) : String :=
  "SELECT public.get_supervisor_job_order('" ++ workflow_type ++ "')"

end PGImplementation

namespace Server

/-- The observable outcome of a request handler: the HTTP status code it
returns and the database events it caused. -/
structure HandlerOut where
  status : Nat
  events : List DbEvent
deriving DecidableEq, Repr

/-- `set_the_run_status` (server.py lines 431-470): rejects a non-positive
instance id with status 400 before any database work; otherwise delegates to
`PGImplementation.update_run_status` and answers 200. -/
def set_the_run_status (exec : ExecOracle) (instance_id : Int) (uid : String)
    (status : String) : HandlerOut :=
  if instance_id > 0 then
    { status := 200, events := PGImplementation.update_run_status exec instance_id uid status }
  else
    { status := 400, events := [] }

/-- Python `str.strip()` whitespace set (space, tab, LF, CR, VT, FF). -/
def isPySpace (c : Char) : Bool :=
  c = ' ' || c = '\t' || c = '\n' || c = '\r' || c = Char.ofNat 11 || c = Char.ofNat 12

/-- Python `version.strip()`. -/
def pyStrip (s : String) : String :=
  String.mk (((s.data.dropWhile isPySpace).reverse.dropWhile isPySpace).reverse)

/-- Consume a maximal run of `.` characters (the regex piece `\.+` is
followed by `\d`, and a digit is never a dot, so maximal munch is exact). -/
def dropDots : List Char → List Char
  | '.' :: rest => dropDots rest
  | l => l

/-- Whether the regex `v\d\.+\d\.+\d` (server.py line 496) matches at the
head of the character list. -/
def versionMatchAt : List Char → Bool
  | 'v' :: d1 :: '.' :: rest =>
    d1.isDigit &&
      (match dropDots rest with
       | d2 :: rest2 =>
         d2.isDigit &&
           (match rest2 with
            | '.' :: rest3 =>
              (match dropDots rest3 with
               | d3 :: _ => d3.isDigit
               | [] => false)
            | _ => false)
       | [] => false)
  | _ => false

/-- `version_pattern.search(version)`: the pattern matches at some position
of the string. -/
def versionSearch : List Char → Bool
  | [] => false
  | c :: rest => versionMatchAt (c :: rest) || versionSearch rest

/-- Python `version.startswith('latest')`. -/
def startsWithLatest : List Char → Bool
  | 'l' :: 'a' :: 't' :: 'e' :: 's' :: 't' :: _ => true
  | _ => false

/-- The guard `version_pattern.search(version) or version.startswith('latest')`
(server.py line 502), applied to the stripped version string. -/
def versionOk (v : String) : Bool :=
  versionSearch v.data || startsWithLatest v.data

/-- `set_the_supervisor_component_image_version` (server.py lines 474-541):
in freeze mode answers 401 with no database work; otherwise strips the
version, validates it against the version pattern / `latest` prefix, and on
success updates the image through `PGImplementation.update_job_image_version`
(the two `GenUtils` table lookups raising `KeyError` would be caught by the
outer handler as a 500); a malformed version is answered with 400 and no
database work. -/
def set_the_supervisor_component_image_version (exec : ExecOracle)
    (freeze_mode : Bool) (image_repo : String) (job_type_name : String)
    (version : String) : HandlerOut :=
  if freeze_mode then
    { status := 401, events := [] }
  else
    let v := pyStrip version
    if versionOk v then
      match GenUtils.image_repo_to_repo_name image_repo,
          GenUtils.job_type_to_image_name job_type_name with
      | some repo, some suffix =>
        { status := 200,
          events := PGImplementation.update_job_image_version exec
            (job_type_name ++ "-") (repo ++ suffix ++ v) }
      | _, _ => { status := 500, events := [] }
    else
      { status := 400, events := [] }

/-- Which branch of `set_the_supervisor_job_order` produced the response:
the recursive-assignment rejection, the update path, or the
"next job process ID was not found" rejection. -/
inductive JobOrderBranch where
  | selfLoop
  | updated
  | notFound
deriving DecidableEq, Repr

/-- Outcome of the next-job update handler: status code, database events,
and the branch that produced the response. -/
structure JobOrderOut where
  status : Nat
  events : List DbEvent
  branch : JobOrderBranch
deriving DecidableEq, Repr

/-- Python `==` between a string and a routed parameter that is a string
when present (`x == None` is `False`, not an error). -/
def pyEqStrOpt (a : String) : Option String → Bool
  | some b => a == b
  | none => false

/-- `set_the_supervisor_job_order` (server.py lines 547-613).  The handler
first rejects `job_type_name == next_job_type_name` with status 500 before
any database call; otherwise it looks up the next job id in
`job_type_name_to_id` (passed in as `lookup`), then guards the update on
`next_job_type_name is not None` — the path parameter, not the looked-up id —
and on that (always-true for a routed request) test appends a hyphen to every
job name except `complete`, updates through
`PGImplementation.update_next_job_for_job`, and re-reads the job order. -/
def set_the_supervisor_job_order (exec : ExecOracle) (lookup : String → Option Int)
    (workflow_type_name : String) (job_type_name : String)
    (next_job_type_name : Option String) : JobOrderOut :=
  if pyEqStrOpt job_type_name next_job_type_name then
    { status := 500, events := [], branch := .selfLoop }
  else
    let next_job_type_id := next_job_type_name.bind lookup
    if next_job_type_name.isSome then
      let job_key := if job_type_name = "complete" then job_type_name else job_type_name ++ "-"
      let upd := PGImplementation.update_next_job_for_job exec job_key
        next_job_type_id workflow_type_name
      { status := 200,
        events := upd ++ [.exec (PGImplementation.getJobOrderSql workflow_type_name)],
        branch := .updated }
    else
      { status := 500, events := [], branch := .notFound }

end Server

/-- The statements executed by the common update-then-maybe-commit event
shape of the `PGImplementation` update operations. -/
theorem execCalls_ifCommit (s : String) (c : Prop) [Decidable c] :
    execCalls (DbEvent.exec s :: (if c then [DbEvent.commit] else [])) = [s] := by
  by_cases h : c <;> simp [execCalls, h]

/-- The commit count of the common update-then-maybe-commit event shape. -/
theorem commitCount_ifCommit (s : String) (c : Prop) [Decidable c] :
    commitCount (DbEvent.exec s :: (if c then [DbEvent.commit] else [])) =
      if c then 1 else 0 := by
  by_cases h : c <;> simp [commitCount, h]

/-- `execCalls` distributes over trace concatenation. -/
theorem execCalls_append (a b : List DbEvent) :
    execCalls (a ++ b) = execCalls a ++ execCalls b := by
  simp [execCalls]

/-- If every item's statement yields a list result, the `PGUtils` reset loop
visits every item in order and does not fail. -/
theorem pgUtilsResetLoop_all_ok (cur : CursorOracle) (wft : String)
    (items : List String)
    (h : ∀ it ∈ items, PGUtils.isListVal (PGUtils.exec_sql cur (PGUtils.resetSql it wft) true) = true) :
    PGUtils.resetLoop cur wft items =
      (items.map fun it => DbEvent.exec (PGUtils.resetSql it wft), false) := by
  induction items with
  | nil => rfl
  | cons it rest ih =>
    have hit := h it (by simp)
    have hrest := ih fun x hx => h x (by simp [hx])
    simp [PGUtils.resetLoop, hit, hrest]

/-- If every item before `bad` yields a list result and `bad` does not, the
`PGUtils` reset loop stops right after `bad` and fails. -/
theorem pgUtilsResetLoop_first_fail (cur : CursorOracle) (wft : String)
    (pre : List String) (bad : String) (post : List String)
    (hpre : ∀ it ∈ pre, PGUtils.isListVal (PGUtils.exec_sql cur (PGUtils.resetSql it wft) true) = true)
    (hbad : PGUtils.isListVal (PGUtils.exec_sql cur (PGUtils.resetSql bad wft) true) = false) :
    PGUtils.resetLoop cur wft (pre ++ bad :: post) =
      ((pre ++ [bad]).map fun it => DbEvent.exec (PGUtils.resetSql it wft), true) := by
  induction pre with
  | nil => simp [PGUtils.resetLoop, hbad]
  | cons it rest ih =>
    have hit := hpre it (by simp)
    have hrest := ih fun x hx => hpre x (by simp [hx])
    simp [PGUtils.resetLoop, hit, hrest]

/-- If every item's statement yields result code 0, the `PGImplementation`
reset loop visits every item in order and does not fail. -/
theorem pgImplResetLoop_all_ok (exec : ExecOracle) (wft : String)
    (items : List String)
    (h : ∀ it ∈ items, exec (PGUtils.resetSql it wft) = 0) :
    PGImplementation.resetLoop exec wft items =
      (items.map fun it => DbEvent.exec (PGUtils.resetSql it wft), false) := by
  induction items with
  | nil => rfl
  | cons it rest ih =>
    have hit := h it (by simp)
    have hrest := ih fun x hx => h x (by simp [hx])
    simp [PGImplementation.resetLoop, hit, hrest]

/-- If every item before `bad` yields result code 0 and `bad` does not, the
`PGImplementation` reset loop stops right after `bad` and fails. -/
theorem pgImplResetLoop_first_fail (exec : ExecOracle) (wft : String)
    (pre : List String) (bad : String) (post : List String)
    (hpre : ∀ it ∈ pre, exec (PGUtils.resetSql it wft) = 0)
    (hbad : exec (PGUtils.resetSql bad wft) ≠ 0) :
    PGImplementation.resetLoop exec wft (pre ++ bad :: post) =
      ((pre ++ [bad]).map fun it => DbEvent.exec (PGUtils.resetSql it wft), true) := by
  induction pre with
  | nil => simp [PGImplementation.resetLoop, hbad]
  | cons it rest ih =>
    have hit := hpre it (by simp)
    have hrest := ih fun x hx => hpre x (by simp [hx])
    simp [PGImplementation.resetLoop, hit, hrest]

/-- Whenever the connection-retry loop returns, the iteration it returned in
passed the liveness probe. -/
theorem get_db_connection_probe_ok (env : Nat → PGUtils.ConnAttempt) :
    ∀ fuel i k, PGUtils.get_db_connection env i fuel = some k →
      PGUtils.connAttemptReturns (env k) = true := by
  intro fuel
  induction fuel with
  | zero => intro i k h; simp [PGUtils.get_db_connection] at h
  | succ n ih =>
    intro i k h
    by_cases hc : PGUtils.connAttemptReturns (env i) = true
    · simp [PGUtils.get_db_connection, hc] at h
      exact h ▸ hc
    · simp [PGUtils.get_db_connection, hc] at h
      exact ih (i + 1) k h

/-- While the environment never allows a live connection, the retry loop
never returns, regardless of how many iterations it is allowed. -/
theorem get_db_connection_never_returns (env : Nat → PGUtils.ConnAttempt)
    (hbad : ∀ k, PGUtils.connAttemptReturns (env k) = false) :
    ∀ fuel i, PGUtils.get_db_connection env i fuel = none := by
  intro fuel
  induction fuel with
  | zero => intro i; rfl
  | succ n ih => intro i; simp [PGUtils.get_db_connection, hbad i, ih]

/-- If the first `n` iterations fail and iteration `i + n` succeeds, the
retry loop started at `i` returns at index `i + n` once it is allowed more
than `n` iterations. -/
theorem get_db_connection_first_success (env : Nat → PGUtils.ConnAttempt) :
    ∀ (n fuel i : Nat),
      (∀ k, k < n → PGUtils.connAttemptReturns (env (i + k)) = false) →
      PGUtils.connAttemptReturns (env (i + n)) = true →
      n < fuel →
      PGUtils.get_db_connection env i fuel = some (i + n) := by
  intro n
  induction n with
  | zero =>
    intro fuel i _ hgood hfuel
    have hgood' : PGUtils.connAttemptReturns (env i) = true := by simpa using hgood
    match fuel, hfuel with
    | f + 1, _ => simp [PGUtils.get_db_connection, hgood']
  | succ m ih =>
    intro fuel i hbad hgood hfuel
    match fuel, hfuel with
    | f + 1, hf =>
      have h0 : PGUtils.connAttemptReturns (env i) = false := by
        have := hbad 0 (Nat.succ_pos m)
        simpa using this
      have hshift : ∀ k, k < m → PGUtils.connAttemptReturns (env (i + 1 + k)) = false := by
        intro k hk
        have := hbad (k + 1) (by omega)
        have harith : i + (k + 1) = i + 1 + k := by omega
        simpa [harith] using this
      have hgood' : PGUtils.connAttemptReturns (env (i + 1 + m)) = true := by
        have harith : i + (m + 1) = i + 1 + m := by omega
        simpa [harith] using hgood
      have hrec := ih f (i + 1) hshift hgood' (by omega)
      have harith : i + 1 + m = i + (m + 1) := by omega
      simp [PGUtils.get_db_connection, h0]
      rw [hrec, harith]

/-- C2: for every statement, `PGUtils.exec_sql` with `is_select` true
returns the fetched row list when it is non-empty, returns the integer
sentinel -1 (never the empty list value) when the statement yields zero
rows, and returns the sentinel -2 when an exception occurs during
execution; with `is_select` false and no exception it returns the raw
`cursor.execute` result (`None`) unchanged. -/
theorem claim_c2 (cur : CursorOracle) (sql : String) :
    (∀ rows, cur sql = .ok rows → rows ≠ [] →
      PGUtils.exec_sql cur sql true = .vlist rows) ∧
    (cur sql = .ok [] → PGUtils.exec_sql cur sql true = .vint (-1)) ∧
    (∀ is_select, cur sql = .error () →
      PGUtils.exec_sql cur sql is_select = .vint (-2)) ∧
    (∀ rows, cur sql = .ok rows → PGUtils.exec_sql cur sql false = .vnone) ∧
    PGUtils.exec_sql cur sql true ≠ .vlist [] := by
  refine ⟨?_, ?_, ?_, ?_, ?_⟩
  · intro rows h hne
    simp [PGUtils.exec_sql, h, List.length_eq_zero, hne]
  · intro h
    simp [PGUtils.exec_sql, h]
  · intro is_select h
    simp [PGUtils.exec_sql, h]
  · intro rows h
    simp [PGUtils.exec_sql, h]
  · unfold PGUtils.exec_sql
    match h : cur sql with
    | .error () => simp
    | .ok rows =>
      by_cases hl : rows.length = 0
      · simp [hl]
      · simp only [if_true]
        simp [hl]
        intro hrows
        exact hl (by simp [hrows])

/-- C2 witness: concrete evaluations discharging each hypothesis of
`claim_c2`. -/
theorem claim_c2_witness :
    PGUtils.exec_sql (fun _ => .ok [PyVal.vnone]) "s" true = .vlist [PyVal.vnone] ∧
    PGUtils.exec_sql (fun _ => .ok []) "s" true = .vint (-1) ∧
    PGUtils.exec_sql (fun _ => .error ()) "s" true = .vint (-2) ∧
    PGUtils.exec_sql (fun _ => .ok [PyVal.vnone]) "s" false = .vnone :=
  ⟨(claim_c2 (fun _ => .ok [PyVal.vnone]) "s").1 [PyVal.vnone] rfl (by simp),
   (claim_c2 (fun _ => .ok []) "s").2.1 rfl,
   (claim_c2 (fun _ => .error ()) "s").2.2.1 true rfl,
   (claim_c2 (fun _ => .ok [PyVal.vnone]) "s").2.2.2.1 [PyVal.vnone] rfl⟩

/-- C3: each of `update_next_job_for_job`, `update_job_image_version` and
`update_run_status` in `PGImplementation` issues exactly one parameterized
update call, and issues an explicit commit if and only if the returned
result code is greater than the failure sentinel -1. -/
theorem claim_c3 (exec : ExecOracle) (job_name : String)
    (next_process_id : Option Int) (workflow_type_name image uid status : String)
    (instance_id : Int) :
    (execCalls (PGImplementation.update_next_job_for_job exec job_name next_process_id workflow_type_name) =
      ["SELECT public.update_next_job_for_job('" ++ job_name ++ "', " ++
        pyArg next_process_id ++ ", '" ++ workflow_type_name ++ "')"] ∧
     commitCount (PGImplementation.update_next_job_for_job exec job_name next_process_id workflow_type_name) =
      (if exec ("SELECT public.update_next_job_for_job('" ++ job_name ++ "', " ++
        pyArg next_process_id ++ ", '" ++ workflow_type_name ++ "')") > -1 then 1 else 0)) ∧
    (execCalls (PGImplementation.update_job_image_version exec job_name image) =
      ["SELECT public.update_job_image('" ++ job_name ++ "', '" ++ image ++ "')"] ∧
     commitCount (PGImplementation.update_job_image_version exec job_name image) =
      (if exec ("SELECT public.update_job_image('" ++ job_name ++ "', '" ++ image ++ "')") > -1 then 1 else 0)) ∧
    (execCalls (PGImplementation.update_run_status exec instance_id uid status) =
      ["SELECT public.set_config_item(" ++ toString instance_id ++ ", '" ++ uid ++
        "', 'supervisor_job_status', '" ++ status ++ "')"] ∧
     commitCount (PGImplementation.update_run_status exec instance_id uid status) =
      (if exec ("SELECT public.set_config_item(" ++ toString instance_id ++ ", '" ++ uid ++
        "', 'supervisor_job_status', '" ++ status ++ "')") > -1 then 1 else 0)) :=
  ⟨⟨execCalls_ifCommit _ _, commitCount_ifCommit _ _⟩,
   ⟨execCalls_ifCommit _ _, commitCount_ifCommit _ _⟩,
   ⟨execCalls_ifCommit _ _, commitCount_ifCommit _ _⟩⟩

/-- C7: with instance id 3057, uid "2021062406-namforecast" and status
"do not rerun", `update_run_status` issues exactly one update call with the
three values substituted positionally (instance id, then uid, then status),
and exactly one commit when the result code indicates success (and none
otherwise). -/
theorem claim_c7 (exec : ExecOracle) :
    execCalls (PGImplementation.update_run_status exec 3057 "2021062406-namforecast" "do not rerun") =
      ["SELECT public.set_config_item(3057, '2021062406-namforecast', 'supervisor_job_status', 'do not rerun')"] ∧
    commitCount (PGImplementation.update_run_status exec 3057 "2021062406-namforecast" "do not rerun") =
      (if exec "SELECT public.set_config_item(3057, '2021062406-namforecast', 'supervisor_job_status', 'do not rerun')" > -1
       then 1 else 0) :=
  ⟨execCalls_ifCommit _ _, commitCount_ifCommit _ _⟩

/-- C9: when `exec_sql` yields a sentinel (-2 after an execution failure,
-1 after an empty result set), each of `PGUtils.get_job_defs`,
`PGUtils.get_job_order` and `PGUtils.get_run_list` raises a `TypeError` by
subscripting the integer with `[0][0]` instead of returning the sentinel or
any error value. -/
theorem claim_c9 :
    PGUtils.exec_sql (fun _ => .error ()) "SELECT public.get_supervisor_run_list()" true = .vint (-2) ∧
    PGUtils.get_job_defs (fun _ => .error ()) = .error .typeError ∧
    PGUtils.get_job_order (fun _ => .error ()) "ECFLOW" = .error .typeError ∧
    PGUtils.get_run_list (fun _ => .error ()) = .error .typeError ∧
    PGUtils.exec_sql (fun _ => .ok []) "SELECT public.get_supervisor_run_list()" true = .vint (-1) ∧
    PGUtils.get_job_defs (fun _ => .ok []) = .error .typeError ∧
    PGUtils.get_job_order (fun _ => .ok []) "ECFLOW" = .error .typeError ∧
    PGUtils.get_run_list (fun _ => .ok []) = .error .typeError :=
  ⟨rfl, rfl, rfl, rfl, rfl, rfl, rfl, rfl⟩

/-- C1: for every workflow type in the fixed table, `reset_job_order`
issues one update call per (job id, next job id) pair in list order; if a
constituent update's result indicates failure (for `PGUtils` a non-list
result, for `PGImplementation` a result code other than 0), the loop aborts
at that pair, no commit appears in the trace, and the function reports
failure; if every pair succeeds, the trace is the full batch followed by
exactly one commit.  Stated for both implementations,
`PGUtils.reset_job_order` (pg_utils.py lines 194-249) and
`PGImplementation.reset_job_order` (pg_impl.py lines 80-141). -/
theorem claim_c1 (workflow_type_name : String) :
    (∀ (cur : CursorOracle) (items : List String),
      PGUtils.workflow_job_types workflow_type_name = some items →
      ((∀ it ∈ items,
          PGUtils.isListVal (PGUtils.exec_sql cur (PGUtils.resetSql it workflow_type_name) true) = true) →
        PGUtils.reset_job_order cur workflow_type_name =
          some ((items.map fun it => DbEvent.exec (PGUtils.resetSql it workflow_type_name)) ++
            [DbEvent.commit], false)) ∧
      (∀ (pre : List String) (bad : String) (post : List String),
        items = pre ++ bad :: post →
        (∀ it ∈ pre,
          PGUtils.isListVal (PGUtils.exec_sql cur (PGUtils.resetSql it workflow_type_name) true) = true) →
        PGUtils.isListVal (PGUtils.exec_sql cur (PGUtils.resetSql bad workflow_type_name) true) = false →
        PGUtils.reset_job_order cur workflow_type_name =
          some ((pre ++ [bad]).map fun it => DbEvent.exec (PGUtils.resetSql it workflow_type_name), true))) ∧
    (∀ (exec : ExecOracle) (items : List String),
      PGImplementation.workflow_job_types workflow_type_name = some items →
      ((∀ it ∈ items, exec (PGUtils.resetSql it workflow_type_name) = 0) →
        PGImplementation.reset_job_order exec workflow_type_name =
          some ((items.map fun it => DbEvent.exec (PGUtils.resetSql it workflow_type_name)) ++
            [DbEvent.commit], false)) ∧
      (∀ (pre : List String) (bad : String) (post : List String),
        items = pre ++ bad :: post →
        (∀ it ∈ pre, exec (PGUtils.resetSql it workflow_type_name) = 0) →
        exec (PGUtils.resetSql bad workflow_type_name) ≠ 0 →
        PGImplementation.reset_job_order exec workflow_type_name =
          some ((pre ++ [bad]).map fun it => DbEvent.exec (PGUtils.resetSql it workflow_type_name), true))) := by
  constructor
  · intro cur items hitems
    constructor
    · intro hok
      have hloop := pgUtilsResetLoop_all_ok cur workflow_type_name items hok
      simp [PGUtils.reset_job_order, hitems, hloop]
    · intro pre bad post hsplit hpre hbad
      have hloop := pgUtilsResetLoop_first_fail cur workflow_type_name pre bad post hpre hbad
      simp [PGUtils.reset_job_order, hitems, hsplit, hloop]
  · intro exec items hitems
    constructor
    · intro hok
      have hloop := pgImplResetLoop_all_ok exec workflow_type_name items hok
      simp [PGImplementation.reset_job_order, hitems, hloop]
    · intro pre bad post hsplit hpre hbad
      have hloop := pgImplResetLoop_first_fail exec workflow_type_name pre bad post hpre hbad
      simp [PGImplementation.reset_job_order, hitems, hsplit, hloop]

/-- C1 witness: the ASGS workflow with an all-success cursor oracle commits
after the full batch in both implementations, and with an all-failure
oracle both abort after the first pair with no commit. -/
theorem claim_c1_witness :
    PGUtils.reset_job_order (fun _ => .ok [PyVal.vnone]) "ASGS" =
      some ((["1, 12", "13, 25", "17, 23", "15, 26", "18, 24", "16, 19", "11, 20", "14, 21"].map
        fun it => DbEvent.exec (PGUtils.resetSql it "ASGS")) ++ [DbEvent.commit], false) ∧
    PGUtils.reset_job_order (fun _ => .error ()) "ASGS" =
      some ([DbEvent.exec (PGUtils.resetSql "1, 12" "ASGS")], true) ∧
    PGImplementation.reset_job_order (fun _ => (0 : Int)) "ASGS" =
      some ((["1, 23", "15, 30", "21, 27", "19, 25", "17, 24", "16, 19", "11, 20", "14, 21"].map
        fun it => DbEvent.exec (PGUtils.resetSql it "ASGS")) ++ [DbEvent.commit], false) ∧
    PGImplementation.reset_job_order (fun _ => (-2 : Int)) "ASGS" =
      some ([DbEvent.exec (PGUtils.resetSql "1, 23" "ASGS")], true) := by
  refine ⟨?_, ?_, ?_, ?_⟩
  · exact (((claim_c1 "ASGS").1 (fun _ => .ok [PyVal.vnone]) _ rfl).1 (fun it _ => rfl))
  · have h := ((claim_c1 "ASGS").1 (fun _ => .error ()) _ rfl).2
      [] "1, 12" ["13, 25", "17, 23", "15, 26", "18, 24", "16, 19", "11, 20", "14, 21"]
      rfl (fun it hit => absurd hit (List.not_mem_nil it)) rfl
    simpa using h
  · exact (((claim_c1 "ASGS").2 (fun _ => (0 : Int)) _ rfl).1 (fun it _ => rfl))
  · have h := ((claim_c1 "ASGS").2 (fun _ => (-2 : Int)) _ rfl).2
      [] "1, 23" ["15, 30", "21, 27", "19, 25", "17, 24", "16, 19", "11, 20", "14, 21"]
      rfl (fun it hit => absurd hit (List.not_mem_nil it)) (by decide)
    simpa using h

/-- C5: whenever `job_type_name` equals `next_job_type_name`, the next-job
update handler rejects with an error response (status 500) from the
self-loop branch, and its trace contains no database call of any kind — no
update, no commit, no read. -/
theorem claim_c5 (exec : ExecOracle) (lookup : String → Option Int)
    (workflow_type_name s : String) :
    Server.set_the_supervisor_job_order exec lookup workflow_type_name s (some s) =
      { status := 500, events := [], branch := .selfLoop } := by
  simp [Server.set_the_supervisor_job_order, Server.pyEqStrOpt]

/-- C6: the version string "v1.2.3" passes the image-version format
validation and the update statement is issued; "1.2.3" (missing the leading
"v") fails validation, the handler issues no database call, and the
response status is 400. -/
theorem claim_c6 (exec : ExecOracle) :
    Server.versionOk (Server.pyStrip "v1.2.3") = true ∧
    execCalls (Server.set_the_supervisor_component_image_version exec false
        "renciorg" "staging" "v1.2.3").events =
      ["SELECT public.update_job_image('staging-', 'renciorg/stagedata:v1.2.3')"] ∧
    (Server.set_the_supervisor_component_image_version exec false
        "renciorg" "staging" "v1.2.3").status = 200 ∧
    Server.versionOk (Server.pyStrip "1.2.3") = false ∧
    Server.set_the_supervisor_component_image_version exec false
        "renciorg" "staging" "1.2.3" = { status := 400, events := [] } := by
  refine ⟨by decide, ?_, rfl, by decide, rfl⟩
  show execCalls
      (DbEvent.exec "SELECT public.update_job_image('staging-', 'renciorg/stagedata:v1.2.3')" ::
        (if exec "SELECT public.update_job_image('staging-', 'renciorg/stagedata:v1.2.3')" > -1
         then [DbEvent.commit] else [])) = _
  exact execCalls_ifCommit _ _

/-- C10: the guard meant to detect a failed job-name-to-id lookup tests the
path parameter `next_job_type_name` (always present on a routed request)
instead of the looked-up `next_job_type_id`; so for every request passing
the self-loop guard the "next job process ID was not found" branch is
unreachable and the handler calls `update_next_job_for_job` even when the
lookup yields `None` (rendered as the literal `None` in the statement). -/
theorem claim_c10 (exec : ExecOracle) (lookup : String → Option Int)
    (workflow_type_name job_type_name s : String)
    (h : job_type_name ≠ s) :
    (Server.set_the_supervisor_job_order exec lookup workflow_type_name
      job_type_name (some s)).branch = .updated ∧
    (Server.set_the_supervisor_job_order exec lookup workflow_type_name
      job_type_name (some s)).branch ≠ .notFound ∧
    execCalls (Server.set_the_supervisor_job_order exec lookup workflow_type_name
      job_type_name (some s)).events =
      ["SELECT public.update_next_job_for_job('" ++
        (if job_type_name = "complete" then job_type_name else job_type_name ++ "-") ++
        "', " ++ pyArg (lookup s) ++ ", '" ++ workflow_type_name ++ "')",
       PGImplementation.getJobOrderSql workflow_type_name] := by
  have hne : Server.pyEqStrOpt job_type_name (some s) = false := by
    simp [Server.pyEqStrOpt, h]
  refine ⟨?_, ?_, ?_⟩ <;>
    simp [Server.set_the_supervisor_job_order, hne,
      PGImplementation.update_next_job_for_job, execCalls_append,
      execCalls_ifCommit, execCalls]

/-- C10 witness: with a lookup that yields `None` for every name, a request
with distinct job types still takes the update branch and issues the update
with the literal `None` id. -/
theorem claim_c10_witness :
    (Server.set_the_supervisor_job_order (fun _ => 0) (fun _ => none) "ECFLOW"
      "staging" (some "complete")).branch = .updated ∧
    execCalls (Server.set_the_supervisor_job_order (fun _ => 0) (fun _ => none) "ECFLOW"
      "staging" (some "complete")).events =
      ["SELECT public.update_next_job_for_job('staging-', None, 'ECFLOW')",
       "SELECT public.get_supervisor_job_order('ECFLOW')"] := by
  have h := claim_c10 (fun _ => 0) (fun _ => none) "ECFLOW" "staging" "complete" (by decide)
  exact ⟨h.1, by simpa using h.2.2⟩

/-- C4 counterexample: a recursive next-job assignment (job type "staging"
with next job type "staging") is rejected with status 500, not 400, so not
every input validation failure is surfaced as 400. -/
theorem claim_c4_counterexample :
    (Server.set_the_supervisor_job_order (fun _ => 0) GenUtils.job_type_name_to_id
      "ECFLOW" "staging" (some "staging")).status = 500 ∧
    (Server.set_the_supervisor_job_order (fun _ => 0) GenUtils.job_type_name_to_id
      "ECFLOW" "staging" (some "staging")).status ≠ 400 := by
  decide

/-- C4 amended: a malformed version string and a non-positive instance id
are surfaced as 400, but a recursive next-job assignment is surfaced as
500. -/
theorem claim_c4_amended :
    (∀ (exec : ExecOracle) (image_repo job_type_name version : String),
      Server.versionOk (Server.pyStrip version) = false →
      Server.set_the_supervisor_component_image_version exec false image_repo
        job_type_name version = { status := 400, events := [] }) ∧
    (∀ (exec : ExecOracle) (instance_id : Int) (uid status : String),
      instance_id ≤ 0 →
      Server.set_the_run_status exec instance_id uid status =
        { status := 400, events := [] }) ∧
    (∀ (exec : ExecOracle) (lookup : String → Option Int)
      (workflow_type_name job_type_name : String),
      (Server.set_the_supervisor_job_order exec lookup workflow_type_name
        job_type_name (some job_type_name)).status = 500) := by
  refine ⟨?_, ?_, ?_⟩
  · intro exec image_repo job_type_name version hv
    simp [Server.set_the_supervisor_component_image_version, hv]
  · intro exec instance_id uid status h
    have hn : ¬instance_id > 0 := by omega
    simp [Server.set_the_run_status, hn]
  · intro exec lookup workflow_type_name job_type_name
    simp [Server.set_the_supervisor_job_order, Server.pyEqStrOpt]

/-- C4 witness: concrete instances of the three amended branches. -/
theorem claim_c4_witness :
    Server.set_the_supervisor_component_image_version (fun _ => 0) false
      "renciorg" "staging" "1.2.3" = { status := 400, events := [] } ∧
    Server.set_the_run_status (fun _ => 0) 0 "2021062406-namforecast" "new" =
      { status := 400, events := [] } ∧
    (Server.set_the_supervisor_job_order (fun _ => 0) GenUtils.job_type_name_to_id
      "ECFLOW" "staging" (some "staging")).status = 500 :=
  ⟨claim_c4_amended.1 (fun _ => 0) "renciorg" "staging" "1.2.3" (by decide),
   claim_c4_amended.2.1 (fun _ => 0) 0 "2021062406-namforecast" "new" (by decide),
   claim_c4_amended.2.2 (fun _ => 0) GenUtils.job_type_name_to_id "ECFLOW" "staging"⟩

/-- C8: the connection-retry loop `PGUtils.get_db_connection` never returns
a failure indication: whenever it returns, the iteration it returned in
passed the liveness probe (on the existing connection, or on a freshly
opened one); while the environment never yields a live connection it does
not return, for any number of allowed iterations (no attempt ceiling); and
once the environment first allows a live connection at iteration `n`, the
call returns there when given more than `n` iterations. -/
theorem claim_c8 :
    (∀ (env : Nat → PGUtils.ConnAttempt) (i fuel k : Nat),
      PGUtils.get_db_connection env i fuel = some k →
      PGUtils.connAttemptReturns (env k) = true) ∧
    (∀ (env : Nat → PGUtils.ConnAttempt) (i fuel : Nat),
      (∀ k, PGUtils.connAttemptReturns (env k) = false) →
      PGUtils.get_db_connection env i fuel = none) ∧
    (∀ (env : Nat → PGUtils.ConnAttempt) (n fuel : Nat),
      (∀ k, k < n → PGUtils.connAttemptReturns (env k) = false) →
      PGUtils.connAttemptReturns (env n) = true →
      n < fuel →
      PGUtils.get_db_connection env 0 fuel = some n) := by
  refine ⟨?_, ?_, ?_⟩
  · intro env i fuel k h
    exact get_db_connection_probe_ok env fuel i k h
  · intro env i fuel hbad
    exact get_db_connection_never_returns env hbad fuel i
  · intro env n fuel hbad hgood hfuel
    have h := get_db_connection_first_success env n fuel 0
      (by intro k hk; simpa using hbad k hk) (by simpa using hgood) hfuel
    simpa using h

/-- C8 witness: an environment that fails twice and then allows a live
connection makes the loop return at iteration 2 with the probe passing
there, while an environment that never allows one keeps the loop running
through any iteration bound. -/
theorem claim_c8_witness :
    PGUtils.get_db_connection
      (fun k => if k < 2 then ⟨false, false, false⟩ else ⟨false, true, true⟩) 0 5 = some 2 ∧
    PGUtils.connAttemptReturns
      ((fun k => if k < 2 then (⟨false, false, false⟩ : PGUtils.ConnAttempt)
        else ⟨false, true, true⟩) 2) = true ∧
    PGUtils.get_db_connection (fun _ => ⟨false, false, false⟩) 0 9 = none := by
  refine ⟨?_, ?_, ?_⟩
  · exact claim_c8.2.2 (fun k => if k < 2 then ⟨false, false, false⟩ else ⟨false, true, true⟩)
      2 5 (by intro k hk; interval_cases k <;> rfl) (by rfl) (by omega)
  · exact claim_c8.1 (fun k => if k < 2 then ⟨false, false, false⟩ else ⟨false, true, true⟩)
      0 5 2 (claim_c8.2.2 _ 2 5 (by intro k hk; interval_cases k <;> rfl) (by rfl) (by omega))
  · exact claim_c8.2.1 (fun _ => ⟨false, false, false⟩) 0 9 (fun k => rfl)
